import Mathlib

/-!
Verification of the BigQuery logging bindings (`fastly/bigquery.go`).

The four operations (GetBigQuery, CreateBigQuery, UpdateBigQuery,
DeleteBigQuery) are embedded as pure functions over a transport oracle.
Each operation returns its result together with the list of HTTP requests
it issued, so that "no network call is made" is the trace being `[]`.
Machine `int` is embedded as `Int`; Go `fmt.Sprintf` with verb d prints an
`Int` exactly as `toString` does.
-/

/-- `BigQuery` record, translated field for field from the Go struct
`BigQuery` (the decoded JSON response shape). -/
structure BigQuery where
  ServiceID : String
  Name : String
  Format : String
  User : String
  ProjectID : String
  Dataset : String
  Table : String
  SecretKey : String
  CreatedAt : String
  UpdatedAt : String
  DeletedAt : String
  ResponseCondition : String
  deriving DecidableEq

/-- Modelled from the spec: the status-acknowledgment response object
(`statusResp` lives outside this file in the repository).  It carries a
boolean-like "ok" signal in its status field. -/
structure StatusResp where
  status : String
  msg : String
  deriving DecidableEq

/-- Modelled from the spec: the acknowledgment is affirmative exactly when
the status field is the string "ok" (spec section 8: no error when the
decoded status response's acknowledgment field is affirmative, e.g.
status "ok"). -/
def StatusResp.Ok (r : StatusResp) : Bool :=
  r.status == "ok"

/-- The error values of the bindings.  The nine `ErrMissing*` sentinels are
package-level values declared outside this file; they are distinct opaque
errors, embedded as distinct constructors.  `GenericErr` embeds a
`fmt.Errorf` result, `TransportErr` an error from the HTTP client helper,
`DecodeErr` an error from `decodeJSON`. -/
inductive Err where
  | ErrMissingService
  | ErrMissingVersion
  | ErrMissingName
  | ErrMissingNewName
  | ErrMissingProjectID
  | ErrMissingDataset
  | ErrMissingTable
  | ErrMissingUser
  | ErrMissingSecretKey
  | GenericErr (msg : String)
  | TransportErr (msg : String)
  | DecodeErr (msg : String)
  deriving DecidableEq

/-- One HTTP request as built by the bindings: a method, a path, and the
form parameters (the Go `map[string]string` is embedded as an association
list in insertion order). -/
structure Request where
  method : String
  path : String
  params : List (String × String)
  deriving DecidableEq

/-- The possible decoded shapes of a response body.  `decodeJSON` and the
HTTP client helper live outside this file; a transport oracle answers each
request with either a transport error or a body. -/
inductive Body where
  | bigQueryList (bs : List BigQuery)
  | bigQueryOne (b : Option BigQuery)
  | statusBody (r : StatusResp)
  | otherBody (s : String)
  deriving DecidableEq

/-- A transport oracle: what the shared HTTP client helper answers to each
request. -/
abbrev Transport := Request → Except String Body

/-- Modelled from the spec: `decodeJSON` into `[]*BigQuery` succeeds iff
the body is a JSON array of endpoint records, and yields those records in
order. -/
def decodeBigQueryList : Body → Except Err (List BigQuery)
  | Body.bigQueryList bs => Except.ok bs
  | _ => Except.error (Err.DecodeErr "decode")

/-- Modelled from the spec: `decodeJSON` into `*BigQuery` succeeds iff the
body is a single endpoint record (or JSON null, leaving a nil pointer). -/
def decodeBigQueryOne : Body → Except Err (Option BigQuery)
  | Body.bigQueryOne b => Except.ok b
  | _ => Except.error (Err.DecodeErr "decode")

/-- Modelled from the spec: `decodeJSON` into `*statusResp` succeeds iff
the body is a status-acknowledgment object. -/
def decodeStatus : Body → Except Err StatusResp
  | Body.statusBody r => Except.ok r
  | _ => Except.error (Err.DecodeErr "decode")

/-- Input to GetBigQuery, from the Go struct `GetBigQueryInput`. -/
structure GetBigQueryInput where
  Service : String
  Version : Int
  deriving DecidableEq

/-- Input to CreateBigQuery, from the Go struct `CreateBigQueryInput`. -/
structure CreateBigQueryInput where
  Service : String
  Version : Int
  Name : String
  ProjectID : String
  Dataset : String
  Table : String
  User : String
  SecretKey : String
  deriving DecidableEq

/-- Input to UpdateBigQuery, from the Go struct `UpdateBigQueryInput`. -/
structure UpdateBigQueryInput where
  Service : String
  Version : Int
  Name : String
  NewName : String
  deriving DecidableEq

/-- Input to DeleteBigQuery, from the Go struct `DeleteBigQueryInput`. -/
structure DeleteBigQueryInput where
  Service : String
  Version : Int
  Name : String
  deriving DecidableEq

/-- The GET request built by GetBigQuery:
`fmt.Sprintf` of service and version into the bigquery listing path, no
parameters. -/
def getReq (i : GetBigQueryInput) : Request :=
  { method := "GET"
    path := "/service/" ++ i.Service ++ "/version/" ++ toString i.Version
      ++ "/logging/bigquery"
    params := [] }

/-- `GetBigQuery` from the source: validate Service and Version, issue the
GET, decode a JSON array of records. -/
def GetBigQuery (t : Transport) (i : GetBigQueryInput) :
    Except Err (List BigQuery) × List Request :=
  if i.Service = "" then
    (Except.error Err.ErrMissingService, [])
  else if i.Version = 0 then
    (Except.error Err.ErrMissingVersion, [])
  else
    match t (getReq i) with
    | Except.error e => (Except.error (Err.TransportErr e), [getReq i])
    | Except.ok body =>
      match decodeBigQueryList body with
      | Except.error e => (Except.error e, [getReq i])
      | Except.ok bs => (Except.ok bs, [getReq i])

/-- The POST request built by CreateBigQuery: the `gcs`-named path from the
source's `fmt.Sprintf`, and the six form parameters in the order the source
assigns them into the map. -/
def createReq (i : CreateBigQueryInput) : Request :=
  { method := "POST"
    path := "/service/" ++ i.Service ++ "/version/" ++ toString i.Version
      ++ "/logging/gcs"
    params := [("name", i.Name), ("project_id", i.ProjectID),
      ("dataset", i.Dataset), ("table", i.Table), ("user", i.User),
      ("secret_key", i.SecretKey)] }

/-- `CreateBigQuery` from the source: eight validation checks in source
order, then a form-encoded POST, then decode of one record. -/
def CreateBigQuery (t : Transport) (i : CreateBigQueryInput) :
    Except Err (Option BigQuery) × List Request :=
  if i.Service = "" then
    (Except.error Err.ErrMissingService, [])
  else if i.Version = 0 then
    (Except.error Err.ErrMissingVersion, [])
  else if i.Name = "" then
    (Except.error Err.ErrMissingName, [])
  else if i.ProjectID = "" then
    (Except.error Err.ErrMissingProjectID, [])
  else if i.Dataset = "" then
    (Except.error Err.ErrMissingDataset, [])
  else if i.Table = "" then
    (Except.error Err.ErrMissingTable, [])
  else if i.User = "" then
    (Except.error Err.ErrMissingUser, [])
  else if i.SecretKey = "" then
    (Except.error Err.ErrMissingSecretKey, [])
  else
    match t (createReq i) with
    | Except.error e => (Except.error (Err.TransportErr e), [createReq i])
    | Except.ok body =>
      match decodeBigQueryOne body with
      | Except.error e => (Except.error e, [createReq i])
      | Except.ok b => (Except.ok b, [createReq i])

/-- The PUT request built by UpdateBigQuery: the path is parameterized by
the current Name; the sole form parameter maps name to NewName. -/
def updateReq (i : UpdateBigQueryInput) : Request :=
  { method := "PUT"
    path := "/service/" ++ i.Service ++ "/version/" ++ toString i.Version
      ++ "/logging/bigquery/" ++ i.Name
    params := [("name", i.NewName)] }

/-- `UpdateBigQuery` from the source: validate Service, Version, Name,
NewName in order, then a form-encoded PUT, then decode of one record. -/
def UpdateBigQuery (t : Transport) (i : UpdateBigQueryInput) :
    Except Err (Option BigQuery) × List Request :=
  if i.Service = "" then
    (Except.error Err.ErrMissingService, [])
  else if i.Version = 0 then
    (Except.error Err.ErrMissingVersion, [])
  else if i.Name = "" then
    (Except.error Err.ErrMissingName, [])
  else if i.NewName = "" then
    (Except.error Err.ErrMissingNewName, [])
  else
    match t (updateReq i) with
    | Except.error e => (Except.error (Err.TransportErr e), [updateReq i])
    | Except.ok body =>
      match decodeBigQueryOne body with
      | Except.error e => (Except.error e, [updateReq i])
      | Except.ok b => (Except.ok b, [updateReq i])

/-- The DELETE request built by DeleteBigQuery. -/
def deleteReq (i : DeleteBigQueryInput) : Request :=
  { method := "DELETE"
    path := "/service/" ++ i.Service ++ "/version/" ++ toString i.Version
      ++ "/logging/bigquery/" ++ i.Name
    params := [] }

/-- `DeleteBigQuery` from the source: validate Service, Version, Name,
issue the DELETE, decode the status response and require `Ok`, otherwise
return the `fmt.Errorf` value with text `Not Ok`. -/
def DeleteBigQuery (t : Transport) (i : DeleteBigQueryInput) :
    Except Err Unit × List Request :=
  if i.Service = "" then
    (Except.error Err.ErrMissingService, [])
  else if i.Version = 0 then
    (Except.error Err.ErrMissingVersion, [])
  else if i.Name = "" then
    (Except.error Err.ErrMissingName, [])
  else
    match t (deleteReq i) with
    | Except.error e => (Except.error (Err.TransportErr e), [deleteReq i])
    | Except.ok body =>
      match decodeStatus body with
      | Except.error e => (Except.error e, [deleteReq i])
      | Except.ok r =>
        if r.Ok then (Except.ok (), [deleteReq i])
        else (Except.error (Err.GenericErr "Not Ok"), [deleteReq i])

/-- The validation order the spec documents for Create: the first field in
the order service, version, name, projectID, dataset, table, user,
secretKey that is empty (zero for version) determines the error.  Written
from the spec's words, to be compared with `CreateBigQuery`. -/
def specCreateFirstMissing (i : CreateBigQueryInput) : Option Err :=
  if i.Service = "" then some Err.ErrMissingService
  else if i.Version = 0 then some Err.ErrMissingVersion
  else if i.Name = "" then some Err.ErrMissingName
  else if i.ProjectID = "" then some Err.ErrMissingProjectID
  else if i.Dataset = "" then some Err.ErrMissingDataset
  else if i.Table = "" then some Err.ErrMissingTable
  else if i.User = "" then some Err.ErrMissingUser
  else if i.SecretKey = "" then some Err.ErrMissingSecretKey
  else none

/-- A transport on which every request fails at the transport layer. -/
def tDown : Transport := fun _ => Except.error "network down"

/-- A transport whose every answer is an affirmative status body. -/
def tOkAck : Transport :=
  fun _ => Except.ok (Body.statusBody { status := "ok", msg := "" })

/-- A concrete Create input whose first missing field is Dataset. -/
def ciNoDataset : CreateBigQueryInput :=
  { Service := "svc123", Version := 3, Name := "endpoint", ProjectID := "proj"
    Dataset := "", Table := "tbl", User := "writer", SecretKey := "key" }

/-- C1: CreateBigQuery validates the required fields in the fixed order
service, version, name, projectID, dataset, table, user, secretKey and
returns the field-specific error of the first field in that order that is
empty (zero for version), with no request issued. -/
theorem createBigQuery_firstMissing (t : Transport) (i : CreateBigQueryInput)
    (e : Err) (h : specCreateFirstMissing i = some e) :
    CreateBigQuery t i = (Except.error e, []) := by
  unfold specCreateFirstMissing at h
  unfold CreateBigQuery
  split_ifs at h ⊢ <;> simp_all

/-- Witness for C1: on a concrete input whose first missing field is
Dataset, CreateBigQuery returns ErrMissingDataset and issues no request. -/
theorem createBigQuery_firstMissing_w :
    specCreateFirstMissing ciNoDataset = some Err.ErrMissingDataset ∧
    CreateBigQuery tDown ciNoDataset = (Except.error Err.ErrMissingDataset, []) :=
  ⟨by decide,
   createBigQuery_firstMissing tDown ciNoDataset Err.ErrMissingDataset (by decide)⟩

/-- C2: for each of the four operations, an empty Service yields
ErrMissingService, and a nonempty Service with a zero Version yields
ErrMissingVersion, in both cases with no request issued. -/
theorem ops_missing_service_version (t : Transport) (gi : GetBigQueryInput)
    (ci : CreateBigQueryInput) (ui : UpdateBigQueryInput)
    (di : DeleteBigQueryInput) :
    (gi.Service = "" → GetBigQuery t gi = (Except.error Err.ErrMissingService, [])) ∧
    (gi.Service ≠ "" → gi.Version = 0 →
      GetBigQuery t gi = (Except.error Err.ErrMissingVersion, [])) ∧
    (ci.Service = "" → CreateBigQuery t ci = (Except.error Err.ErrMissingService, [])) ∧
    (ci.Service ≠ "" → ci.Version = 0 →
      CreateBigQuery t ci = (Except.error Err.ErrMissingVersion, [])) ∧
    (ui.Service = "" → UpdateBigQuery t ui = (Except.error Err.ErrMissingService, [])) ∧
    (ui.Service ≠ "" → ui.Version = 0 →
      UpdateBigQuery t ui = (Except.error Err.ErrMissingVersion, [])) ∧
    (di.Service = "" → DeleteBigQuery t di = (Except.error Err.ErrMissingService, [])) ∧
    (di.Service ≠ "" → di.Version = 0 →
      DeleteBigQuery t di = (Except.error Err.ErrMissingVersion, [])) := by
  refine ⟨?_, ?_, ?_, ?_, ?_, ?_, ?_, ?_⟩ <;> intros <;>
    simp_all [GetBigQuery, CreateBigQuery, UpdateBigQuery, DeleteBigQuery]

/-- Witness for C2: each half of each of the four operations exercised at a
concrete input. -/
theorem ops_missing_service_version_w :
    GetBigQuery tDown { Service := "", Version := 1 } =
      (Except.error Err.ErrMissingService, []) ∧
    GetBigQuery tDown { Service := "svc123", Version := 0 } =
      (Except.error Err.ErrMissingVersion, []) ∧
    CreateBigQuery tDown { ciNoDataset with Service := "" } =
      (Except.error Err.ErrMissingService, []) ∧
    CreateBigQuery tDown { ciNoDataset with Version := 0 } =
      (Except.error Err.ErrMissingVersion, []) ∧
    UpdateBigQuery tDown { Service := "", Version := 1, Name := "a", NewName := "b" } =
      (Except.error Err.ErrMissingService, []) ∧
    UpdateBigQuery tDown { Service := "svc123", Version := 0, Name := "a", NewName := "b" } =
      (Except.error Err.ErrMissingVersion, []) ∧
    DeleteBigQuery tDown { Service := "", Version := 1, Name := "a" } =
      (Except.error Err.ErrMissingService, []) ∧
    DeleteBigQuery tDown { Service := "svc123", Version := 0, Name := "a" } =
      (Except.error Err.ErrMissingVersion, []) := by
  refine ⟨?_, ?_, ?_, ?_, ?_, ?_, ?_, ?_⟩
  · exact (ops_missing_service_version tDown { Service := "", Version := 1 }
      ciNoDataset { Service := "", Version := 1, Name := "a", NewName := "b" }
      { Service := "", Version := 1, Name := "a" }).1 rfl
  · exact (ops_missing_service_version tDown { Service := "svc123", Version := 0 }
      ciNoDataset { Service := "", Version := 1, Name := "a", NewName := "b" }
      { Service := "", Version := 1, Name := "a" }).2.1 (by decide) rfl
  · exact (ops_missing_service_version tDown { Service := "", Version := 1 }
      { ciNoDataset with Service := "" }
      { Service := "", Version := 1, Name := "a", NewName := "b" }
      { Service := "", Version := 1, Name := "a" }).2.2.1 rfl
  · exact (ops_missing_service_version tDown { Service := "", Version := 1 }
      { ciNoDataset with Version := 0 }
      { Service := "", Version := 1, Name := "a", NewName := "b" }
      { Service := "", Version := 1, Name := "a" }).2.2.2.1 (by decide) rfl
  · exact (ops_missing_service_version tDown { Service := "", Version := 1 }
      ciNoDataset { Service := "", Version := 1, Name := "a", NewName := "b" }
      { Service := "", Version := 1, Name := "a" }).2.2.2.2.1 rfl
  · exact (ops_missing_service_version tDown { Service := "", Version := 1 }
      ciNoDataset { Service := "svc123", Version := 0, Name := "a", NewName := "b" }
      { Service := "", Version := 1, Name := "a" }).2.2.2.2.2.1 (by decide) rfl
  · exact (ops_missing_service_version tDown { Service := "", Version := 1 }
      ciNoDataset { Service := "", Version := 1, Name := "a", NewName := "b" }
      { Service := "", Version := 1, Name := "a" }).2.2.2.2.2.2.1 rfl
  · exact (ops_missing_service_version tDown { Service := "", Version := 1 }
      ciNoDataset { Service := "", Version := 1, Name := "a", NewName := "b" }
      { Service := "svc123", Version := 0, Name := "a" }).2.2.2.2.2.2.2 (by decide) rfl

/-- Helper: on inputs passing all eight checks, CreateBigQuery issues
exactly the one POST request `createReq i`, whatever the transport does. -/
theorem createBigQuery_trace_eq (t : Transport) (i : CreateBigQueryInput)
    (hs : i.Service ≠ "") (hv : i.Version ≠ 0) (hn : i.Name ≠ "")
    (hp : i.ProjectID ≠ "") (hd : i.Dataset ≠ "") (ht : i.Table ≠ "")
    (hu : i.User ≠ "") (hk : i.SecretKey ≠ "") :
    (CreateBigQuery t i).2 = [createReq i] := by
  unfold CreateBigQuery
  rw [if_neg hs, if_neg hv, if_neg hn, if_neg hp, if_neg hd, if_neg ht,
    if_neg hu, if_neg hk]
  split
  · rfl
  · split <;> rfl

/-- A concrete Create input passing all validation checks. -/
def ciOk : CreateBigQueryInput :=
  { Service := "svc123", Version := 3, Name := "endpoint", ProjectID := "proj"
    Dataset := "ds", Table := "tbl", User := "writer", SecretKey := "key" }

/-- C3: a Create input passing validation leads to exactly one request, a
POST, whose path is the gcs-named sub-resource path built from Service and
Version. -/
theorem createBigQuery_posts_gcs (t : Transport) (i : CreateBigQueryInput)
    (hs : i.Service ≠ "") (hv : i.Version ≠ 0) (hn : i.Name ≠ "")
    (hp : i.ProjectID ≠ "") (hd : i.Dataset ≠ "") (ht : i.Table ≠ "")
    (hu : i.User ≠ "") (hk : i.SecretKey ≠ "") :
    (CreateBigQuery t i).2 = [createReq i] ∧
    (createReq i).method = "POST" ∧
    (createReq i).path = "/service/" ++ i.Service ++ "/version/"
      ++ toString i.Version ++ "/logging/gcs" :=
  ⟨createBigQuery_trace_eq t i hs hv hn hp hd ht hu hk, rfl, rfl⟩

/-- Witness for C3 at the concrete valid input `ciOk`. -/
theorem createBigQuery_posts_gcs_w :
    (CreateBigQuery tDown ciOk).2 = [createReq ciOk] ∧
    (createReq ciOk).method = "POST" ∧
    (createReq ciOk).path = "/service/svc123/version/3/logging/gcs" :=
  createBigQuery_posts_gcs tDown ciOk (by decide) (by decide) (by decide)
    (by decide) (by decide) (by decide) (by decide) (by decide)

/-- Counterexample to C4 as stated: the POST issued for the concrete valid
input `ciOk` carries six form parameters, not seven (the input has six
value fields beyond Service and Version). -/
theorem create_params_not_seven_cex :
    (CreateBigQuery tDown ciOk).2 = [createReq ciOk] ∧
    (createReq ciOk).params.length = 6 ∧
    (createReq ciOk).params.length ≠ 7 := by
  refine ⟨?_, rfl, by decide⟩
  exact createBigQuery_trace_eq tDown ciOk (by decide) (by decide) (by decide)
    (by decide) (by decide) (by decide) (by decide) (by decide)

/-- C4 amended: a Create input passing validation leads to exactly one
request whose form parameters are one entry per each of the six value
fields beyond Service and Version, keyed name, project underscore id,
dataset, table, user, secret underscore key. -/
theorem createBigQuery_params_all_fields (t : Transport)
    (i : CreateBigQueryInput)
    (hs : i.Service ≠ "") (hv : i.Version ≠ 0) (hn : i.Name ≠ "")
    (hp : i.ProjectID ≠ "") (hd : i.Dataset ≠ "") (ht : i.Table ≠ "")
    (hu : i.User ≠ "") (hk : i.SecretKey ≠ "") :
    (CreateBigQuery t i).2 = [createReq i] ∧
    (createReq i).params = [("name", i.Name), ("project_id", i.ProjectID),
      ("dataset", i.Dataset), ("table", i.Table), ("user", i.User),
      ("secret_key", i.SecretKey)] :=
  ⟨createBigQuery_trace_eq t i hs hv hn hp hd ht hu hk, rfl⟩

/-- Witness for the amended C4 at the concrete valid input `ciOk`. -/
theorem createBigQuery_params_all_fields_w :
    (CreateBigQuery tDown ciOk).2 = [createReq ciOk] ∧
    (createReq ciOk).params = [("name", "endpoint"), ("project_id", "proj"),
      ("dataset", "ds"), ("table", "tbl"), ("user", "writer"),
      ("secret_key", "key")] :=
  createBigQuery_params_all_fields tDown ciOk (by decide) (by decide)
    (by decide) (by decide) (by decide) (by decide) (by decide) (by decide)

/-- Two concrete records, and a transport answering every request with the
JSON array holding them in order. -/
def bqA : BigQuery :=
  { ServiceID := "svc123", Name := "alpha", Format := "", User := ""
    ProjectID := "", Dataset := "", Table := "", SecretKey := ""
    CreatedAt := "", UpdatedAt := "", DeletedAt := "", ResponseCondition := "" }

/-- A second concrete record, differing from `bqA` in its name. -/
def bqB : BigQuery := { bqA with Name := "beta" }

/-- A transport answering every request with the two-record array. -/
def tList : Transport := fun _ => Except.ok (Body.bigQueryList [bqA, bqB])

/-- C5: a Get input with nonempty Service and nonzero Version leads to
exactly one GET request on the bigquery listing path, and when the body
decodes as an array of records the result is that array, order
preserved. -/
theorem getBigQuery_list (t : Transport) (i : GetBigQueryInput)
    (bs : List BigQuery) (hs : i.Service ≠ "") (hv : i.Version ≠ 0)
    (ht : t (getReq i) = Except.ok (Body.bigQueryList bs)) :
    GetBigQuery t i = (Except.ok bs, [getReq i]) ∧
    (getReq i).method = "GET" ∧
    (getReq i).path = "/service/" ++ i.Service ++ "/version/"
      ++ toString i.Version ++ "/logging/bigquery" := by
  refine ⟨?_, rfl, rfl⟩
  unfold GetBigQuery
  rw [if_neg hs, if_neg hv, ht]
  rfl

/-- Witness for C5: service svc123 version 3 issues the GET on the
documented path and returns both records in order. -/
theorem getBigQuery_list_w :
    GetBigQuery tList { Service := "svc123", Version := 3 } =
      (Except.ok [bqA, bqB], [getReq { Service := "svc123", Version := 3 }]) ∧
    (getReq { Service := "svc123", Version := 3 }).path =
      "/service/svc123/version/3/logging/bigquery" :=
  ⟨(getBigQuery_list tList { Service := "svc123", Version := 3 } [bqA, bqB]
      (by decide) (by decide) rfl).1,
   rfl⟩

/-- Helper: on inputs passing all four checks, UpdateBigQuery issues
exactly the one PUT request `updateReq i`, whatever the transport does. -/
theorem updateBigQuery_trace_eq (t : Transport) (i : UpdateBigQueryInput)
    (hs : i.Service ≠ "") (hv : i.Version ≠ 0) (hn : i.Name ≠ "")
    (hnn : i.NewName ≠ "") :
    (UpdateBigQuery t i).2 = [updateReq i] := by
  unfold UpdateBigQuery
  rw [if_neg hs, if_neg hv, if_neg hn, if_neg hnn]
  split
  · rfl
  · split <;> rfl

/-- C6: an Update input passing validation leads to exactly one request, a
PUT whose path ends in the current Name, and whose form parameters are the
single entry mapping name to NewName; the old name appears in the path,
not in the parameter list. -/
theorem updateBigQuery_request (t : Transport) (i : UpdateBigQueryInput)
    (hs : i.Service ≠ "") (hv : i.Version ≠ 0) (hn : i.Name ≠ "")
    (hnn : i.NewName ≠ "") :
    (UpdateBigQuery t i).2 = [updateReq i] ∧
    (updateReq i).method = "PUT" ∧
    (updateReq i).path = "/service/" ++ i.Service ++ "/version/"
      ++ toString i.Version ++ "/logging/bigquery/" ++ i.Name ∧
    (updateReq i).params = [("name", i.NewName)] :=
  ⟨updateBigQuery_trace_eq t i hs hv hn hnn, rfl, rfl, rfl⟩

/-- The spec's concrete rename example: old-endpoint to new-endpoint on
svc123 version 3. -/
def uiRename : UpdateBigQueryInput :=
  { Service := "svc123", Version := 3
    Name := "old-endpoint", NewName := "new-endpoint" }

/-- Witness for C6: renaming old-endpoint to new-endpoint on svc123
version 3 issues the PUT on the old-name path with the single parameter
name mapped to new-endpoint. -/
theorem updateBigQuery_request_w :
    (UpdateBigQuery tDown uiRename).2 = [updateReq uiRename] ∧
    (updateReq uiRename).method = "PUT" ∧
    (updateReq uiRename).path =
      "/service/svc123/version/3/logging/bigquery/old-endpoint" ∧
    (updateReq uiRename).params = [("name", "new-endpoint")] :=
  updateBigQuery_request tDown uiRename
    (by decide) (by decide) (by decide) (by decide)

/-- Helper: on inputs passing both checks, GetBigQuery issues exactly the
one GET request `getReq i`, whatever the transport does. -/
theorem getBigQuery_trace_eq (t : Transport) (i : GetBigQueryInput)
    (hs : i.Service ≠ "") (hv : i.Version ≠ 0) :
    (GetBigQuery t i).2 = [getReq i] := by
  unfold GetBigQuery
  rw [if_neg hs, if_neg hv]
  split
  · rfl
  · split <;> rfl

/-- Helper: on inputs passing all three checks, DeleteBigQuery issues
exactly the one DELETE request `deleteReq i`, whatever the transport
does. -/
theorem deleteBigQuery_trace_eq (t : Transport) (i : DeleteBigQueryInput)
    (hs : i.Service ≠ "") (hv : i.Version ≠ 0) (hn : i.Name ≠ "") :
    (DeleteBigQuery t i).2 = [deleteReq i] := by
  unfold DeleteBigQuery
  rw [if_neg hs, if_neg hv, if_neg hn]
  split
  · rfl
  · split
    · rfl
    · split <;> rfl

/-- C7: with Service nonempty and Version nonzero, an empty current Name
yields ErrMissingName and a nonempty Name with empty NewName yields
ErrMissingNewName, in both cases with no request issued. -/
theorem updateBigQuery_name_checks (t : Transport) (i : UpdateBigQueryInput)
    (hs : i.Service ≠ "") (hv : i.Version ≠ 0) :
    (i.Name = "" → UpdateBigQuery t i = (Except.error Err.ErrMissingName, [])) ∧
    (i.Name ≠ "" → i.NewName = "" →
      UpdateBigQuery t i = (Except.error Err.ErrMissingNewName, [])) := by
  constructor <;> intros <;> simp_all [UpdateBigQuery]

/-- Witness for C7: both name checks exercised at concrete inputs. -/
theorem updateBigQuery_name_checks_w :
    UpdateBigQuery tDown { Service := "svc123", Version := 3, Name := "", NewName := "b" } =
      (Except.error Err.ErrMissingName, []) ∧
    UpdateBigQuery tDown { Service := "svc123", Version := 3, Name := "a", NewName := "" } =
      (Except.error Err.ErrMissingNewName, []) :=
  ⟨(updateBigQuery_name_checks tDown
      { Service := "svc123", Version := 3, Name := "", NewName := "b" }
      (by decide) (by decide)).1 rfl,
   (updateBigQuery_name_checks tDown
      { Service := "svc123", Version := 3, Name := "a", NewName := "" }
      (by decide) (by decide)).2 (by decide) rfl⟩

/-- C8: on a validated Delete input whose response body decodes into a
status record, the call succeeds exactly when the acknowledgment is
affirmative, and otherwise returns the generic error built from the text
Not Ok, which carries nothing from the response. -/
theorem deleteBigQuery_ack (t : Transport) (i : DeleteBigQueryInput)
    (r : StatusResp) (hs : i.Service ≠ "") (hv : i.Version ≠ 0)
    (hn : i.Name ≠ "") (ht : t (deleteReq i) = Except.ok (Body.statusBody r)) :
    DeleteBigQuery t i =
      ((if r.Ok then Except.ok () else Except.error (Err.GenericErr "Not Ok")),
        [deleteReq i]) ∧
    ((DeleteBigQuery t i).1 = Except.ok () ↔ r.Ok = true) := by
  have key : DeleteBigQuery t i =
      ((if r.Ok then Except.ok () else Except.error (Err.GenericErr "Not Ok")),
        [deleteReq i]) := by
    unfold DeleteBigQuery
    rw [if_neg hs, if_neg hv, if_neg hn, ht]
    cases hOk : r.Ok <;> simp [decodeStatus, hOk]
  refine ⟨key, ?_⟩
  rw [key]
  cases hOk : r.Ok <;> simp

/-- A concrete valid Delete input. -/
def diOk : DeleteBigQueryInput :=
  { Service := "svc123", Version := 3, Name := "endpoint" }

/-- A transport whose every answer is a non-affirmative status body. -/
def tBadAck : Transport :=
  fun _ => Except.ok (Body.statusBody { status := "fail", msg := "" })

/-- Witness for C8: one affirmative and one non-affirmative acknowledgment
at concrete inputs. -/
theorem deleteBigQuery_ack_w :
    (DeleteBigQuery tOkAck diOk =
      ((if StatusResp.Ok { status := "ok", msg := "" } then Except.ok ()
        else Except.error (Err.GenericErr "Not Ok")), [deleteReq diOk])) ∧
    ((DeleteBigQuery tBadAck diOk).1 = Except.ok () ↔
      StatusResp.Ok { status := "fail", msg := "" } = true) :=
  ⟨(deleteBigQuery_ack tOkAck diOk { status := "ok", msg := "" }
      (by decide) (by decide) (by decide) rfl).1,
   (deleteBigQuery_ack tBadAck diOk { status := "fail", msg := "" }
      (by decide) (by decide) (by decide) rfl).2⟩

/-- Counterexample to C9 as stated: version negative one passes validation
in GetBigQuery: the GET request is issued on a path embedding the negative
number, and the result is the transport's answer, not a validation
rejection. -/
theorem negative_version_accepted_cex :
    (GetBigQuery tDown { Service := "svc123", Version := -1 }).2 =
      [{ method := "GET", path := "/service/svc123/version/-1/logging/bigquery",
         params := [] }] ∧
    (GetBigQuery tDown { Service := "svc123", Version := -1 }).1 =
      Except.error (Err.TransportErr "network down") := by
  constructor
  · rfl
  · rfl

/-- C9 amended: for each of the four operations, the version check rejects
exactly the value zero: the operation returns ErrMissingVersion with no
request issued precisely when Service is nonempty and Version is zero;
any other version value, negative ones included, passes the version
check. -/
theorem version_zero_only (t : Transport) (gi : GetBigQueryInput)
    (ci : CreateBigQueryInput) (ui : UpdateBigQueryInput)
    (di : DeleteBigQueryInput) :
    (GetBigQuery t gi = (Except.error Err.ErrMissingVersion, []) ↔
      gi.Service ≠ "" ∧ gi.Version = 0) ∧
    (CreateBigQuery t ci = (Except.error Err.ErrMissingVersion, []) ↔
      ci.Service ≠ "" ∧ ci.Version = 0) ∧
    (UpdateBigQuery t ui = (Except.error Err.ErrMissingVersion, []) ↔
      ui.Service ≠ "" ∧ ui.Version = 0) ∧
    (DeleteBigQuery t di = (Except.error Err.ErrMissingVersion, []) ↔
      di.Service ≠ "" ∧ di.Version = 0) := by
  refine ⟨⟨?_, ?_⟩, ⟨?_, ?_⟩, ⟨?_, ?_⟩, ⟨?_, ?_⟩⟩
  · intro h
    by_cases h1 : gi.Service = ""
    · simp [GetBigQuery, h1] at h
    · by_cases h2 : gi.Version = 0
      · exact ⟨h1, h2⟩
      · have htr := getBigQuery_trace_eq t gi h1 h2
        rw [h] at htr
        simp at htr
  · rintro ⟨h1, h2⟩
    simp [GetBigQuery, h1, h2]
  · intro h
    by_cases h1 : ci.Service = ""
    · simp [CreateBigQuery, h1] at h
    · by_cases h2 : ci.Version = 0
      · exact ⟨h1, h2⟩
      · exfalso
        by_cases h3 : ci.Name = ""
        · simp [CreateBigQuery, h1, h2, h3] at h
        · by_cases h4 : ci.ProjectID = ""
          · simp [CreateBigQuery, h1, h2, h3, h4] at h
          · by_cases h5 : ci.Dataset = ""
            · simp [CreateBigQuery, h1, h2, h3, h4, h5] at h
            · by_cases h6 : ci.Table = ""
              · simp [CreateBigQuery, h1, h2, h3, h4, h5, h6] at h
              · by_cases h7 : ci.User = ""
                · simp [CreateBigQuery, h1, h2, h3, h4, h5, h6, h7] at h
                · by_cases h8 : ci.SecretKey = ""
                  · simp [CreateBigQuery, h1, h2, h3, h4, h5, h6, h7, h8] at h
                  · have htr := createBigQuery_trace_eq t ci h1 h2 h3 h4 h5 h6 h7 h8
                    rw [h] at htr
                    simp at htr
  · rintro ⟨h1, h2⟩
    simp [CreateBigQuery, h1, h2]
  · intro h
    by_cases h1 : ui.Service = ""
    · simp [UpdateBigQuery, h1] at h
    · by_cases h2 : ui.Version = 0
      · exact ⟨h1, h2⟩
      · exfalso
        by_cases h3 : ui.Name = ""
        · simp [UpdateBigQuery, h1, h2, h3] at h
        · by_cases h4 : ui.NewName = ""
          · simp [UpdateBigQuery, h1, h2, h3, h4] at h
          · have htr := updateBigQuery_trace_eq t ui h1 h2 h3 h4
            rw [h] at htr
            simp at htr
  · rintro ⟨h1, h2⟩
    simp [UpdateBigQuery, h1, h2]
  · intro h
    by_cases h1 : di.Service = ""
    · simp [DeleteBigQuery, h1] at h
    · by_cases h2 : di.Version = 0
      · exact ⟨h1, h2⟩
      · exfalso
        by_cases h3 : di.Name = ""
        · simp [DeleteBigQuery, h1, h2, h3] at h
        · have htr := deleteBigQuery_trace_eq t di h1 h2 h3
          rw [h] at htr
          simp at htr
  · rintro ⟨h1, h2⟩
    simp [DeleteBigQuery, h1, h2]

/-- Witness for the amended C9: the Get conjunct applied at a concrete
zero-version input. -/
theorem version_zero_only_w :
    GetBigQuery tDown { Service := "svc123", Version := 0 } =
      (Except.error Err.ErrMissingVersion, []) :=
  (version_zero_only tDown { Service := "svc123", Version := 0 } ciOk
    uiRename diOk).1.mpr ⟨by decide, rfl⟩

/-- A Delete input whose Service and Name are a single space. -/
def diWhitespace : DeleteBigQueryInput :=
  { Service := " ", Version := 1, Name := " " }

/-- A Create input, valid, whose SecretKey is a single space. -/
def ciWsKey : CreateBigQueryInput := { ciOk with SecretKey := " " }

/-- C10: validation tests only exact equality with the empty string, so
whitespace-only required fields pass: a Delete whose Service and Name are
a single space issues the DELETE with the spaces embedded in the path, and
a Create whose SecretKey is a single space sends that space as the
secret-key form parameter. -/
theorem whitespace_passes_validation :
    DeleteBigQuery tOkAck diWhitespace = (Except.ok (), [deleteReq diWhitespace]) ∧
    (deleteReq diWhitespace).path = "/service/ /version/1/logging/bigquery/ " ∧
    (CreateBigQuery tDown ciWsKey).2 = [createReq ciWsKey] ∧
    (createReq ciWsKey).params =
      [("name", "endpoint"), ("project_id", "proj"), ("dataset", "ds"),
       ("table", "tbl"), ("user", "writer"), ("secret_key", " ")] := by
  refine ⟨rfl, rfl, ?_, rfl⟩
  exact createBigQuery_trace_eq tDown ciWsKey
    (by decide) (by decide) (by decide) (by decide) (by decide) (by decide)
    (by decide) (by decide)
